import Mathlib

/-!
# Verification of the geo_bot parcel scoring engine

Shallow embedding of the scoring core of the repository
(`bot/services/metrics.py` and `bot/services/dem.py`) over exact
rational arithmetic, together with theorems settling the frozen claims
about it.  Python floats are modelled as `ℚ`, Python `None` as
`Option`, Python ints as `ℤ`/`ℕ`.
-/

namespace GeoBot

/-! ## Python-semantics helpers -/

/-- Python truthiness-based `x or default` applied to an optional float:
both `None` and `0.0` are falsy in Python, so both are replaced by the
default.  This models expressions such as `d_road or 5000` in
`compute_all` (metrics.py line 327). -/
def pyOrQ (o : Option ℚ) (dflt : ℚ) : ℚ :=
  match o with
  | none => dflt
  | some v => if v = 0 then dflt else v

/-- Python 3 `round` to an integer: round-half-to-even (banker's
rounding).  Away from exact halves it agrees with Mathlib's `round`
(round half up). -/
def pyRound (q : ℚ) : ℤ :=
  if q - ⌊q⌋ = 1 / 2 then (if Even ⌊q⌋ then ⌊q⌋ else ⌊q⌋ + 1) else round q

theorem floor_le_pyRound (q : ℚ) : ⌊q⌋ ≤ pyRound q := by
  unfold pyRound
  split_ifs with h1 h2
  · exact le_refl _
  · exact le_of_lt (lt_add_one _)
  · rw [round_eq]
    exact Int.floor_mono (by linarith)

theorem pyRound_le_of_le (q : ℚ) (n : ℤ) (h : q ≤ (n : ℚ)) : pyRound q ≤ n := by
  unfold pyRound
  split_ifs with h1 h2
  · have := Int.floor_le_floor h
    simpa using this
  · have hfl : (⌊q⌋ : ℚ) ≤ q := Int.floor_le q
    have : (⌊q⌋ : ℚ) < (n : ℚ) := by linarith
    have : ⌊q⌋ < n := by exact_mod_cast this
    omega
  · rw [round_eq]
    have hlt : q + 1 / 2 < ((n + 1 : ℤ) : ℚ) := by push_cast; linarith
    have := Int.floor_lt.mpr hlt
    omega

theorem le_pyRound_of_le (q : ℚ) (n : ℤ) (h : (n : ℚ) ≤ q) : n ≤ pyRound q :=
  le_trans (Int.le_floor.mpr h) (floor_le_pyRound q)

/-! ## metrics.py: `flood_risk_pct` (lines 92–107) -/

/-- Water-distance contribution of `flood_risk_pct`. -/
def waterTier (d : ℚ) : ℤ :=
  if d < 10 then 60 else if d < 30 then 45 else if d < 100 then 25
  else if d < 300 then 10 else 0

/-- Relative-lowness contribution of `flood_risk_pct`. -/
def lownessTier (v : ℚ) : ℤ :=
  if v ≤ -2 then 35 else if v ≤ -1 then 20 else if v ≤ -(1 / 2) then 10 else 0

/-- Very-flat-terrain contribution of `flood_risk_pct`. -/
def flatTier (s : ℚ) : ℤ :=
  if s ≤ 1 / 2 then 5 else 0

/-- metrics.py `flood_risk_pct` (lines 92–107): additive flood-risk
heuristic over optional water distance, relative lowness and
slope-indicative percentage; each `None` argument contributes 0; the
sum is capped at 100. -/
def floodRiskPct (dWater relLow slopePct : Option ℚ) : ℤ :=
  min 100 (dWater.elim 0 waterTier + relLow.elim 0 lownessTier +
    slopePct.elim 0 flatTier)

/-- metrics.py `_risk_level_label` (lines 109–110). -/
def riskLevelLabel (pct : ℤ) : String :=
  if pct < 35 then "низкий" else if pct < 65 then "средний" else "высокий"

theorem waterTier_nonneg (d : ℚ) : 0 ≤ waterTier d := by
  unfold waterTier; split_ifs <;> norm_num

theorem lownessTier_nonneg (v : ℚ) : 0 ≤ lownessTier v := by
  unfold lownessTier; split_ifs <;> norm_num

theorem flatTier_nonneg (s : ℚ) : 0 ≤ flatTier s := by
  unfold flatTier; split_ifs <;> norm_num

theorem waterTier_antitone {d₁ d₂ : ℚ} (h : d₁ ≤ d₂) : waterTier d₂ ≤ waterTier d₁ := by
  unfold waterTier
  split_ifs <;> linarith

theorem lownessTier_antitone {v₁ v₂ : ℚ} (h : v₁ ≤ v₂) : lownessTier v₂ ≤ lownessTier v₁ := by
  unfold lownessTier
  split_ifs <;> linarith

theorem optTier_nonneg (o : Option ℚ) (f : ℚ → ℤ) (hf : ∀ x, 0 ≤ f x) :
    0 ≤ o.elim 0 f := by
  cases o with
  | none => exact le_refl 0
  | some v => exact hf v

theorem floodRiskPct_nonneg (w r s : Option ℚ) : 0 ≤ floodRiskPct w r s := by
  unfold floodRiskPct
  refine le_min (by norm_num) ?_
  have h1 := optTier_nonneg w waterTier waterTier_nonneg
  have h2 := optTier_nonneg r lownessTier lownessTier_nonneg
  have h3 := optTier_nonneg s flatTier flatTier_nonneg
  linarith

theorem floodRiskPct_le_100 (w r s : Option ℚ) : floodRiskPct w r s ≤ 100 :=
  min_le_left _ _

/-! ## metrics.py: `norm_inv_dist` and the scoring tail of `compute_all`
(lines 317–336) -/

/-- metrics.py `norm_inv_dist` (lines 321–325): inverse-distance
normalizer; `None` yields 30, `d ≤ good` yields 100, `d ≥ bad` yields 0,
linear interpolation in between. -/
def normInvDist (d : Option ℚ) (good bad : ℚ) : ℚ :=
  match d with
  | none => 30
  | some x => if x ≤ good then 100 else if bad ≤ x then 0
      else 100 * (bad - x) / (bad - good)

theorem normInvDist_nonneg (d : Option ℚ) (good bad : ℚ) :
    0 ≤ normInvDist d good bad := by
  cases d with
  | none => norm_num [normInvDist]
  | some x =>
    simp only [normInvDist]
    split_ifs with h1 h2
    · norm_num
    · norm_num
    · have hx : good < x := lt_of_not_le h1
      have hb : x < bad := lt_of_not_le h2
      apply div_nonneg <;> linarith

theorem normInvDist_le_100 (d : Option ℚ) (good bad : ℚ) :
    normInvDist d good bad ≤ 100 := by
  cases d with
  | none => norm_num [normInvDist]
  | some x =>
    simp only [normInvDist]
    split_ifs with h1 h2
    · norm_num
    · norm_num
    · have hx : good < x := lt_of_not_le h1
      have hb : x < bad := lt_of_not_le h2
      rw [mul_div_assoc]
      have hle : (bad - x) / (bad - good) ≤ 1 :=
        (div_le_one (by linarith)).mpr (by linarith)
      linarith

/-- metrics.py line 327:
`score_access = norm_inv_dist(d_road or 5000, 300, 5000)`.
Note the Python `or`: a road distance of exactly `0.0` is falsy and is
replaced by the far default 5000. -/
def scoreAccessOf (dRoad : Option ℚ) : ℚ :=
  normInvDist (some (pyOrQ dRoad 5000)) 300 5000

/-- metrics.py line 328: `score_slope`. -/
def scoreSlopeOf (slopePct : ℚ) : ℚ :=
  max 0 (100 - min 100 (|slopePct - 3| * 15))

/-- metrics.py line 329: `score_flood`. -/
def scoreFloodOf (floodPct : ℤ) : ℚ :=
  max 0 (100 - (floodPct : ℚ))

/-- metrics.py line 330: `score_infra`. -/
def scoreInfraOf (dStop dPlace : Option ℚ) : ℚ :=
  0.6 * normInvDist (some (pyOrQ dStop 4000)) 500 4000 +
    0.4 * normInvDist (some (pyOrQ dPlace 15000)) 2000 15000

/-- metrics.py line 331: `score_power`. -/
def scorePowerOf (dPower : Option ℚ) : ℚ :=
  normInvDist (some (pyOrQ dPower 5000)) 300 5000

/-- metrics.py lines 333–336: the weighted composite from the five
sub-scores and the road-adjacency flag, rounded with Python `round`. -/
def scoreTotalOf (access flood slope infra power : ℚ) (touchesRoad : Bool) : ℤ :=
  pyRound (0.25 * access + 0.20 * flood + 0.20 * slope + 0.15 * infra +
    0.10 * power + 0.10 * (if touchesRoad then 100 else 40))

/-- metrics.py lines 317–336: the scoring tail of `compute_all`, from the
raw nearest distances, relative lowness and slope-indicative figure to
the rounded composite total. -/
def computeScoreTotal (dRoad dWater dPower dStop dPlace : Option ℚ)
    (relLow slopePct : ℚ) (touchesRoad : Bool) : ℤ :=
  scoreTotalOf (scoreAccessOf dRoad)
    (scoreFloodOf (floodRiskPct dWater (some relLow) (some slopePct)))
    (scoreSlopeOf slopePct)
    (scoreInfraOf dStop dPlace)
    (scorePowerOf dPower)
    touchesRoad

theorem scoreSlopeOf_nonneg (s : ℚ) : 0 ≤ scoreSlopeOf s := le_max_left 0 _

theorem scoreFloodOf_nonneg (f : ℤ) : 0 ≤ scoreFloodOf f := le_max_left 0 _

theorem scoreInfraOf_nonneg (dStop dPlace : Option ℚ) :
    0 ≤ scoreInfraOf dStop dPlace := by
  unfold scoreInfraOf
  have h1 := normInvDist_nonneg (some (pyOrQ dStop 4000)) 500 4000
  have h2 := normInvDist_nonneg (some (pyOrQ dPlace 15000)) 2000 15000
  have e1 : (0 : ℚ) ≤ 0.6 * normInvDist (some (pyOrQ dStop 4000)) 500 4000 :=
    mul_nonneg (by norm_num) h1
  have e2 : (0 : ℚ) ≤ 0.4 * normInvDist (some (pyOrQ dPlace 15000)) 2000 15000 :=
    mul_nonneg (by norm_num) h2
  linarith

theorem scoreTotalOf_ge_four (a f s i p : ℚ) (t : Bool)
    (ha : 0 ≤ a) (hf : 0 ≤ f) (hs : 0 ≤ s) (hi : 0 ≤ i) (hp : 0 ≤ p) :
    4 ≤ scoreTotalOf a f s i p t := by
  unfold scoreTotalOf
  apply le_pyRound_of_le
  have hadj : (40 : ℚ) ≤ (if t then (100 : ℚ) else 40) := by
    cases t <;> norm_num
  push_cast
  nlinarith

theorem scoreAccessOf_nonneg (d : Option ℚ) : 0 ≤ scoreAccessOf d :=
  normInvDist_nonneg _ _ _

theorem scorePowerOf_nonneg (d : Option ℚ) : 0 ≤ scorePowerOf d :=
  normInvDist_nonneg _ _ _

/-! ## Claim theorems on the scoring engine -/

/-- C1: the code maps a road distance of exactly 0 to access sub-score 0,
because `d_road or 5000` replaces the falsy float `0.0` by the far
default 5000, while `norm_inv_dist(0, 300, 5000)` itself — what the claim
(and the spec's `road_distance ?? 5000`) prescribes for a non-null
distance — is 100.  A null road distance does give access 0 as claimed. -/
theorem score_access_zero_distance_eval :
    scoreAccessOf (some 0) = 0 ∧ scoreAccessOf none = 0 ∧
    normInvDist (some 0) 300 5000 = 100 := by
  refine ⟨?_, ?_, ?_⟩ <;> norm_num [scoreAccessOf, pyOrQ, normInvDist]

/-- C2 (counterexample): at water distance exactly 100 m the strict
comparison `d < 100` fails, so the water tier contributes 10, not 25, and
`flood_risk_pct(100, -1.5, 0.4)` is 35, not the claimed 50. -/
theorem flood_scenario_counterexample :
    floodRiskPct (some 100) (some (-1.5)) (some 0.4) ≠ 50 := by
  norm_num [floodRiskPct, waterTier, lownessTier, flatTier]

/-- C2 (amended): for water distance exactly 100 m (tier `<300` → +10),
relative lowness −1.5 m (tier `≤ −1` → +20) and slope-indicative 0.4 %
(`≤ 0.5` → +5), `flood_risk_pct` returns min(100, 10+20+5) = 35, and 35
carries the "medium" risk label (low below 35, medium below 65, high
otherwise). -/
theorem flood_scenario_amended :
    floodRiskPct (some 100) (some (-1.5)) (some 0.4) = 35 ∧
    riskLevelLabel 35 = "средний" :=
  ⟨by norm_num [floodRiskPct, waterTier, lownessTier, flatTier], rfl⟩

/-- C7: `flood_risk_pct` is monotonically non-increasing in a non-null
water distance, non-increasing in the relative-lowness value (i.e.
non-decreasing in how low the parcel sits), and always in [0, 100]. -/
theorem flood_risk_monotone_and_bounded :
    (∀ d₁ d₂ r s, d₁ ≤ d₂ →
      floodRiskPct (some d₂) r s ≤ floodRiskPct (some d₁) r s) ∧
    (∀ w v₁ v₂ s, v₁ ≤ v₂ →
      floodRiskPct w (some v₂) s ≤ floodRiskPct w (some v₁) s) ∧
    (∀ w r s, 0 ≤ floodRiskPct w r s ∧ floodRiskPct w r s ≤ 100) := by
  refine ⟨?_, ?_, fun w r s => ⟨floodRiskPct_nonneg w r s, floodRiskPct_le_100 w r s⟩⟩
  · intro d₁ d₂ r s h
    unfold floodRiskPct
    apply min_le_min (le_refl 100)
    have hw := waterTier_antitone h
    simp only [Option.elim]
    linarith
  · intro w v₁ v₂ s h
    unfold floodRiskPct
    apply min_le_min (le_refl 100)
    have hv := lownessTier_antitone h
    simp only [Option.elim]
    linarith

/-- Witness for C7 at concrete inputs. -/
theorem flood_risk_monotone_and_bounded_witness :
    floodRiskPct (some 50) (some 0) (some 3) ≤ floodRiskPct (some 5) (some 0) (some 3) ∧
    floodRiskPct (some 50) (some 0) (some 3) ≤ floodRiskPct (some 50) (some (-3)) (some 3) ∧
    (0 ≤ floodRiskPct none none none ∧ floodRiskPct none none none ≤ 100) :=
  ⟨flood_risk_monotone_and_bounded.1 5 50 (some 0) (some 3) (by norm_num),
   flood_risk_monotone_and_bounded.2.1 (some 50) (-3) 0 (some 3) (by norm_num),
   flood_risk_monotone_and_bounded.2.2 none none none⟩

/-- C6: for sub-scores in [0, 100] and any adjacency flag, the composite
is the Python-rounded weighted sum 0.25·access + 0.20·flood + 0.20·slope
+ 0.15·infra + 0.10·power + 0.10·(100 or 40), and it is an integer in
[0, 100]. -/
theorem score_total_formula_and_bounds (a f s i p : ℚ) (t : Bool)
    (ha0 : 0 ≤ a) (ha1 : a ≤ 100) (hf0 : 0 ≤ f) (hf1 : f ≤ 100)
    (hs0 : 0 ≤ s) (hs1 : s ≤ 100) (hi0 : 0 ≤ i) (hi1 : i ≤ 100)
    (hp0 : 0 ≤ p) (hp1 : p ≤ 100) :
    scoreTotalOf a f s i p t =
      pyRound (0.25 * a + 0.20 * f + 0.20 * s + 0.15 * i + 0.10 * p +
        0.10 * (if t then 100 else 40)) ∧
    0 ≤ scoreTotalOf a f s i p t ∧ scoreTotalOf a f s i p t ≤ 100 := by
  refine ⟨rfl, ?_, ?_⟩
  · exact le_trans (by norm_num)
      (scoreTotalOf_ge_four a f s i p t ha0 hf0 hs0 hi0 hp0)
  · unfold scoreTotalOf
    apply pyRound_le_of_le
    have hadj : (if t then (100 : ℚ) else 40) ≤ 100 := by cases t <;> norm_num
    push_cast
    nlinarith

/-- Witness for C6 at concrete sub-scores. -/
theorem score_total_formula_and_bounds_witness :
    scoreTotalOf 50 50 50 50 50 true =
      pyRound (0.25 * 50 + 0.20 * 50 + 0.20 * 50 + 0.15 * 50 + 0.10 * 50 +
        0.10 * (if true then 100 else 40)) ∧
    0 ≤ scoreTotalOf 50 50 50 50 50 true ∧
    scoreTotalOf 50 50 50 50 50 true ≤ 100 :=
  score_total_formula_and_bounds 50 50 50 50 50 true (by norm_num) (by norm_num)
    (by norm_num) (by norm_num) (by norm_num) (by norm_num) (by norm_num)
    (by norm_num) (by norm_num) (by norm_num)

/-- C10: for every input to the scoring tail of `compute_all`, the
composite total is at least 4: every sub-score is non-negative and the
road-adjacency term contributes 0.10·40 = 4 even without adjacency, so
the engine can never return a total of 0. -/
theorem compute_score_total_ge_four (dRoad dWater dPower dStop dPlace : Option ℚ)
    (relLow slopePct : ℚ) (t : Bool) :
    4 ≤ computeScoreTotal dRoad dWater dPower dStop dPlace relLow slopePct t := by
  unfold computeScoreTotal
  exact scoreTotalOf_ge_four _ _ _ _ _ _ (scoreAccessOf_nonneg dRoad)
    (scoreFloodOf_nonneg _) (scoreSlopeOf_nonneg slopePct)
    (scoreInfraOf_nonneg dStop dPlace) (scorePowerOf_nonneg dPower)

/-! ## dem.py: `_expand_grid` (lines 35–46) -/

/-- dem.py lines 38–39: one naive axis count, `max(5, int(length/step))`.
For the non-negative lengths produced by a bounding box, Python's
truncating `int` agrees with the floor; for a (never occurring) negative
ratio both sides collapse to the lower bound 5, so `Int.toNat` of the
floor is faithful either way. -/
def naiveAxisCount (lo hi step : ℚ) : ℕ :=
  max 5 ⌊(hi - lo) / step⌋.toNat

/-- dem.py lines 40–43: when the naive count `nx*ny` exceeds `maxPts`,
divide both axis counts by `k = sqrt(nx*ny/maxPts)` and floor-bound each
at 5.  Over the exact reals `⌊nx / k⌋ = ⌊√(nx²·maxPts/(nx·ny))⌋`, and
for a rational radicand `q` one has `⌊√q⌋ = Nat.sqrt ⌊q⌋`, which the
definition uses so that it stays executable over ℕ. -/
def scaledCounts (nx ny maxPts : ℕ) : ℕ × ℕ :=
  if maxPts < nx * ny then
    (max 5 (Nat.sqrt (nx * nx * maxPts / (nx * ny))),
     max 5 (Nat.sqrt (ny * ny * maxPts / (nx * ny))))
  else (nx, ny)

/-- dem.py `_expand_grid` (lines 35–46): the pair of axis point counts of
the sampling grid over the bounding box `(minx, miny, maxx, maxy)`. -/
def expandGridCounts (minx miny maxx maxy step : ℚ) (maxPts : ℕ) : ℕ × ℕ :=
  scaledCounts (naiveAxisCount minx maxx step) (naiveAxisCount miny maxy step) maxPts

theorem scaledCounts_sqrt_mul_le (nx ny maxPts : ℕ) (h : 0 < nx * ny) :
    Nat.sqrt (nx * nx * maxPts / (nx * ny)) *
      Nat.sqrt (ny * ny * maxPts / (nx * ny)) ≤ maxPts := by
  set N := nx * ny with hN
  set a := Nat.sqrt (nx * nx * maxPts / N) with ha
  set b := Nat.sqrt (ny * ny * maxPts / N) with hb
  have haN : a * a * N ≤ nx * nx * maxPts := by
    calc a * a * N ≤ nx * nx * maxPts / N * N :=
          Nat.mul_le_mul_right N (Nat.sqrt_le _)
      _ ≤ nx * nx * maxPts := Nat.div_mul_le_self _ _
  have hbN : b * b * N ≤ ny * ny * maxPts := by
    calc b * b * N ≤ ny * ny * maxPts / N * N :=
          Nat.mul_le_mul_right N (Nat.sqrt_le _)
      _ ≤ ny * ny * maxPts := Nat.div_mul_le_self _ _
  by_contra hgt
  push_neg at hgt
  have hsq : (maxPts + 1) * (maxPts + 1) ≤ (a * b) * (a * b) :=
    Nat.mul_le_mul hgt hgt
  have hmul : (a * a * N) * (b * b * N) ≤ (nx * nx * maxPts) * (ny * ny * maxPts) :=
    Nat.mul_le_mul haN hbN
  have hNpos : 0 < N * N := Nat.mul_pos h h
  have hle : (a * b) * (a * b) * (N * N) ≤ maxPts * maxPts * (N * N) := by
    calc (a * b) * (a * b) * (N * N) = (a * a * N) * (b * b * N) := by ring
      _ ≤ (nx * nx * maxPts) * (ny * ny * maxPts) := hmul
      _ = maxPts * maxPts * (N * N) := by rw [hN]; ring
  have : (a * b) * (a * b) ≤ maxPts * maxPts := Nat.le_of_mul_le_mul_right hle hNpos
  have : (maxPts + 1) * (maxPts + 1) ≤ maxPts * maxPts := le_trans hsq this
  nlinarith

/-! ## dem.py: `compute_dem_stats` (lines 109–162) -/

/-- Ascending sort, modelling `np.sort` / `sorted` on a list of floats. -/
def sortQ (l : List ℚ) : List ℚ :=
  l.insertionSort (· ≤ ·)

/-- `np.min` over a non-empty list (0 on the empty list, which the
pipeline never produces: `np.min` would raise there). -/
def listMinQ : List ℚ → ℚ
  | [] => 0
  | h :: t => t.foldl min h

/-- `np.max` over a non-empty list (0 on the empty list, as above). -/
def listMaxQ : List ℚ → ℚ
  | [] => 0
  | h :: t => t.foldl max h

/-- `np.median`: middle element of the sorted list, or the mean of the
two middle elements for an even length. -/
def medianQ (l : List ℚ) : ℚ :=
  let s := sortQ l
  let n := s.length
  if n = 0 then 0
  else if n % 2 = 1 then s.getD (n / 2) 0
  else (s.getD (n / 2 - 1) 0 + s.getD (n / 2) 0) / 2

/-- `np.percentile(·, 95)` with numpy's default linear interpolation:
position `0.95·(n−1)`, interpolating between the two nearest order
statistics. -/
def percentile95Q (l : List ℚ) : ℚ :=
  let s := sortQ l
  let n := s.length
  if n = 0 then 0
  else
    let idx : ℚ := (19 / 20) * ((n : ℚ) - 1)
    let lo := ⌊idx⌋.toNat
    let frac := idx - (⌊idx⌋ : ℚ)
    if lo + 1 < n then s.getD lo 0 + frac * (s.getD (lo + 1) 0 - s.getD lo 0)
    else s.getD lo 0

/-- `np.diff` of the sorted list: consecutive differences. -/
def diffsSorted (l : List ℚ) : List ℚ :=
  List.zipWith (fun a b => b - a) (sortQ l) (sortQ l).tail

/-- Arithmetic mean (0 on the empty list). -/
def meanQ (l : List ℚ) : ℚ :=
  if l.length = 0 then 0 else l.sum / (l.length : ℚ)

/-- Population variance, i.e. the square of `np.std` (ddof = 0). -/
def varQ (l : List ℚ) : ℚ :=
  if l.length = 0 then 0 else meanQ (l.map (fun x => (x - meanQ l) ^ 2))

/-- dem.py lines 152–153: the *square* of the slope-indicative figure
`clip(std(diffs), 0, 100)`.  The standard deviation itself is an
irrational square root, so the embedding carries its exact square:
`clip(std, 0, 100)² = min(100², var)` because `std ≥ 0`, and in
particular the squared figure is 0 exactly when the code's figure is 0.
When the population has at most 3 points the code uses `diffs = [0.0]`,
whose deviation is 0. -/
def slopeIndicativeSq (elevIn : List ℚ) : ℚ :=
  if 3 < elevIn.length then min (100 ^ 2) (varQ (diffsSorted elevIn)) else 0

/-- dem.py lines 138–146: the pairing loop.  It walks the inside flags
`pts_inside` (index `i`) and the elevation list (index `j`) in lockstep,
stopping when the elevation list runs out; every elevation goes into the
"all" population and into the "inside" population when the flag at the
*same position* is set.  The loop's `if h is None` branch is dead code in
the program, because the list it receives was already null-filtered
(line 133), so the embedding takes a `List ℚ`. -/
def demPartition : List Bool → List ℚ → List ℚ × List ℚ
  | _, [] => ([], [])
  | [], _ :: _ => ([], [])
  | b :: bs, h :: hs =>
    let p := demPartition bs hs
    (if b then h :: p.1 else p.1, h :: p.2)

/-- The elevation-statistics record of dem.py `compute_dem_stats`
(lines 134–136 and 155–162).  `slope_indicative_sq` carries the exact
square of the code's `slope_indicative_pct`, see `slopeIndicativeSq`. -/
structure DemStats where
  elev_min : ℚ
  elev_max : ℚ
  elev_med : ℚ
  elev_p95 : ℚ
  slope_indicative_sq : ℚ
  rel_lowness_m : ℚ
  deriving DecidableEq

/-- dem.py lines 132–162: the statistics part of `compute_dem_stats`,
from the per-grid-point inside flags and the raw elevation lookup result
(`None` = lookup failure at that point) to the statistics record.
Line 133 null-filters the elevations; an entirely-null result yields the
zero-filled record; otherwise the populations come from `demPartition`,
with the "all" population substituted for an empty "inside" one
(line 147). -/
def computeDemStatsFrom (inside : List Bool) (elevRaw : List (Option ℚ)) : DemStats :=
  let elev := elevRaw.filterMap id
  if elev = [] then
    { elev_min := 0, elev_max := 0, elev_med := 0, elev_p95 := 0,
      slope_indicative_sq := 0, rel_lowness_m := 0 }
  else
    let p := demPartition inside elev
    let elevIn := if p.1 = [] then p.2 else p.1
    { elev_min := listMinQ elevIn, elev_max := listMaxQ elevIn,
      elev_med := medianQ elevIn, elev_p95 := percentile95Q elevIn,
      slope_indicative_sq := slopeIndicativeSq elevIn,
      rel_lowness_m := medianQ elevIn - medianQ p.2 }

/-! ## Claim theorems on the DEM sampler -/

theorem scaledCounts_spec (nx ny : ℕ) (hx : 5 ≤ nx) (hy : 5 ≤ ny) :
    5 ≤ (scaledCounts nx ny 500).1 ∧ 5 ≤ (scaledCounts nx ny 500).2 ∧
    ((scaledCounts nx ny 500).1 * (scaledCounts nx ny 500).2 ≤ 500 ∨
      (scaledCounts nx ny 500).1 = 5 ∨ (scaledCounts nx ny 500).2 = 5) := by
  unfold scaledCounts
  by_cases hc : 500 < nx * ny
  · rw [if_pos hc]
    refine ⟨le_max_left _ _, le_max_left _ _, ?_⟩
    rcases le_or_lt (Nat.sqrt (nx * nx * 500 / (nx * ny))) 5 with h1 | h1
    · exact Or.inr (Or.inl (max_eq_left h1))
    rcases le_or_lt (Nat.sqrt (ny * ny * 500 / (nx * ny))) 5 with h2 | h2
    · exact Or.inr (Or.inr (max_eq_left h2))
    · refine Or.inl ?_
      rw [max_eq_right h1.le, max_eq_right h2.le]
      exact scaledCounts_sqrt_mul_le nx ny 500 (lt_trans (by norm_num) hc)
  · rw [if_neg hc]
    exact ⟨hx, hy, Or.inl (not_lt.mp hc)⟩

/-- C4 (amended): both axis counts of the sampling grid are at least 5,
and the total point count respects the 500 ceiling *except* when the
5-point floor clamps an axis back up after the isotropic division — so
the total is at most 500 or one of the axes sits at the floor value 5
(and in the latter case the total can exceed 500, see the
counterexample). -/
theorem expand_grid_axis_floor_and_cap (minx miny maxx maxy step : ℚ) :
    5 ≤ (expandGridCounts minx miny maxx maxy step 500).1 ∧
    5 ≤ (expandGridCounts minx miny maxx maxy step 500).2 ∧
    ((expandGridCounts minx miny maxx maxy step 500).1 *
        (expandGridCounts minx miny maxx maxy step 500).2 ≤ 500 ∨
      (expandGridCounts minx miny maxx maxy step 500).1 = 5 ∨
      (expandGridCounts minx miny maxx maxy step 500).2 = 5) :=
  scaledCounts_spec _ _ (le_max_left _ _) (le_max_left _ _)

/-- C4 (counterexample): for the 60000 m × 400 m bounding box of a very
elongated buffer region, with the default spacing 60 m and ceiling 500,
the naive counts are 1000 × 6 = 6000 > 500, the isotropic rescale gives
⌊1000/√12⌋ = 288 and ⌊6/√12⌋ = 1, the second axis is clamped up to 5,
and the grid holds 288·5 = 1440 > 500 points — the claimed 500-point cap
fails. -/
theorem expand_grid_cap_counterexample :
    500 < (expandGridCounts 0 0 60000 400 60 500).1 *
      (expandGridCounts 0 0 60000 400 60 500).2 := by
  have h1 : naiveAxisCount 0 60000 60 = 1000 := by
    unfold naiveAxisCount
    norm_num [Int.floor_eq_iff]
    decide
  have h2 : naiveAxisCount 0 400 60 = 6 := by
    unfold naiveAxisCount
    norm_num [Int.floor_eq_iff]
    decide
  have hs1 : Nat.sqrt (1000 * 1000 * 500 / (1000 * 6)) = 288 := by norm_num
  have hs2 : Nat.sqrt (6 * 6 * 500 / (1000 * 6)) = 1 := by norm_num
  have h5 : scaledCounts 1000 6 500 = (288, 5) := by
    unfold scaledCounts
    rw [if_pos (by norm_num), hs1, hs2]
    decide
  have h : expandGridCounts 0 0 60000 400 60 500 = (288, 5) := by
    show scaledCounts (naiveAxisCount 0 60000 60) (naiveAxisCount 0 400 60) 500 = (288, 5)
    rw [h1, h2]
    exact h5
  rw [h]
  norm_num

/-- C8: when every elevation in the lookup result is null,
`compute_dem_stats` returns the zero-filled statistics record (and, being
a total function here, raises nothing). -/
theorem dem_stats_all_null (inside : List Bool) (elevRaw : List (Option ℚ))
    (h : ∀ e ∈ elevRaw, e = none) :
    computeDemStatsFrom inside elevRaw =
      { elev_min := 0, elev_max := 0, elev_med := 0, elev_p95 := 0,
        slope_indicative_sq := 0, rel_lowness_m := 0 } := by
  have hnil : elevRaw.filterMap id = [] := by
    rw [List.filterMap_eq_nil_iff]
    intro a ha
    simp [h a ha]
  unfold computeDemStatsFrom
  rw [hnil]
  rfl

/-- Witness for C8: a two-point all-null lookup yields the zero record. -/
theorem dem_stats_all_null_witness :
    computeDemStatsFrom [true] [none, none] =
      { elev_min := 0, elev_max := 0, elev_med := 0, elev_p95 := 0,
        slope_indicative_sq := 0, rel_lowness_m := 0 } :=
  dem_stats_all_null [true] [none, none] (by decide)

/-- C3 (code bug evidence): with inside flags `[false, true, true]` and
raw elevations `[null, 5, 7]`, the null-filtered list `[5, 7]` is paired
positionally with the *leading* flags, so the elevation 5 — sampled at an
inside-classified grid point — lands only in the "all" population and the
inside population becomes `[7]` instead of `[5, 7]`; consequently the
statistics (min/median/etc. 7 rather than 5/6/…) are computed over the
misaligned population. -/
theorem dem_partition_misaligned :
    demPartition [false, true, true] [(5 : ℚ), 7] = ([7], [5, 7]) ∧
    computeDemStatsFrom [false, true, true] [none, some 5, some 7] =
      { elev_min := 7, elev_max := 7, elev_med := 7, elev_p95 := 7,
        slope_indicative_sq := 0, rel_lowness_m := 1 } := by
  constructor
  · rfl
  · have hf : (([none, some 5, some 7] : List (Option ℚ)).filterMap id) = [5, 7] := rfl
    unfold computeDemStatsFrom
    rw [hf]
    have hne : ¬([(5 : ℚ), 7] = ([] : List ℚ)) := by simp
    rw [if_neg hne]
    have hp : demPartition [false, true, true] [(5 : ℚ), 7] = ([7], [5, 7]) := rfl
    simp only [hp]
    have hmed : medianQ [(7 : ℚ)] = 7 := rfl
    have hmed2 : medianQ [(5 : ℚ), 7] = 6 := by
      norm_num [medianQ, sortQ, List.insertionSort, List.orderedInsert]
    have hp95 : percentile95Q [(7 : ℚ)] = 7 := by
      norm_num [percentile95Q, sortQ, List.insertionSort, List.orderedInsert]
    simp only [List.cons_ne_self, if_neg, if_false, listMinQ, listMaxQ, hmed, hmed2, hp95]
    norm_num [slopeIndicativeSq, DemStats.mk.injEq]

/-! ## metrics.py: `build_risks` (lines 112–192) -/

/-- The fields of the metric-set dictionary consulted by `build_risks`
(metrics.py lines 112–192).  Distances and DEM fields are optional
(`None` = no data); `flood_pct` is the optionally pre-stored flood
percentage of the `risk` sub-dictionary. -/
structure MetricSet where
  touches_road : Bool
  facade_len_m : ℚ
  d_road_m : Option ℚ
  d_water_m : Option ℚ
  d_power_m : Option ℚ
  d_stop_m : Option ℚ
  d_place_m : Option ℚ
  d_rail_m : Option ℚ
  d_gas_m : Option ℚ
  d_industrial_m : Option ℚ
  d_landfill_m : Option ℚ
  d_wastewater_m : Option ℚ
  d_cemetery_m : Option ℚ
  rel_lowness_m : Option ℚ
  slope_indicative_pct : Option ℚ
  flood_pct : Option ℤ

/-- `m.get(key) is not None and float(m[key]) < c` on an optional float. -/
def optLt (o : Option ℚ) (c : ℚ) : Bool :=
  match o with
  | none => false
  | some v => decide (v < c)

/-- Python `m.get(key) and float(m[key]) > c` (line 186): `None` and
`0.0` are falsy, but a zero value also fails `0 > c` for the positive
thresholds used, so the plain comparison is faithful. -/
def optGt (o : Option ℚ) (c : ℚ) : Bool :=
  match o with
  | none => false
  | some v => decide (c < v)

/-- `dict.fromkeys`-style deduplication keeping the first occurrence of
each string (metrics.py line 191); `seen` holds the already-kept
strings. -/
def dedupFirstAux (seen : List String) : List String → List String
  | [] => []
  | a :: l =>
    if a ∈ seen then dedupFirstAux seen l
    else a :: dedupFirstAux (a :: seen) l

/-- Deduplication preserving first-seen order, `list(dict.fromkeys(·))`. -/
def dedupFirst (l : List String) : List String :=
  dedupFirstAux [] l

/-- metrics.py lines 123–126: the flood percentage used by
`build_risks` — the stored one, or `flood_risk_pct` recomputed from the
water distance and the DEM fields when absent. -/
def buildRisksFloodPct (m : MetricSet) : ℤ :=
  m.flood_pct.getD
    (floodRiskPct m.d_water_m m.rel_lowness_m m.slope_indicative_pct)

/-- metrics.py lines 112–190: the risk strings appended by the rule
sequence, in rule order.  The risks list and the checklist are
accumulated independently by the rules, so the in-order concatenation
models the appends exactly. -/
def rawRisks (m : MetricSet) : List String :=
  let fr := buildRisksFloodPct m
  let slope := pyOrQ m.slope_indicative_pct 0
  (if !m.touches_road then
    ["Нет примыкания к дороге — может потребоваться сервитут/правовой доступ."] else []) ++
  (if 65 ≤ fr then
    ["Высокий риск подтопления (" ++ toString fr ++ "%). Участок близко к воде/в низине."]
   else if 35 ≤ fr then
    ["Средний риск подтопления (" ++ toString fr ++ "%)."] else []) ++
  (if optLt m.d_water_m 100 then
    ["Близко к воде (<100 м) — вероятны ограничения водоохранной/прибрежной зоны."] else []) ++
  (if optLt m.d_power_m 50 then
    ["ЛЭП ближе 50 м — возможны ограничения охранной зоны."] else []) ++
  (if optLt m.d_rail_m 200 then
    ["Близость железной дороги (<200 м) — шум/вибрация."] else []) ++
  (if optLt m.d_gas_m 50 then
    ["Газопровод ближе 50 м — ограничения охранной зоны."] else []) ++
  (if optLt m.d_industrial_m 500 then
    ["Промзона рядом (<500 м) — шум/запах/трафик."] else []) ++
  (if optLt m.d_landfill_m 1000 then
    ["Полигон ТБО/свалка вблизи (<1 км) — запах/ветровой мусор."] else []) ++
  (if optLt m.d_wastewater_m 700 then
    ["Очистные сооружения рядом (<700 м) — возможен запах."] else []) ++
  (if optLt m.d_cemetery_m 300 then
    ["Кладбище рядом (<300 м) — чувствительный объект."] else []) ++
  (if 8 ≤ slope then
    ["Крутой уклон (>8%) — значительные земляные работы."]
   else if slope ≤ 0.3 then
    ["Очень малый уклон (<0.3%) — возможен застой воды."] else []) ++
  (if m.touches_road && decide (m.facade_len_m < 8) then
    ["Узкий фасад (<8 м) — сложный въезд/разворот техники."] else []) ++
  (if optGt m.d_stop_m 2000 || optGt m.d_place_m 5000 then
    ["Слабая инфраструктура — далеко до остановки/населённого пункта."] else [])

/-- metrics.py lines 112–190: the checklist strings appended by the rule
sequence, in rule order and before deduplication.  Note line 131: the
flood-zone-maps item is appended *unconditionally*, outside any rule
condition. -/
def rawChecks (m : MetricSet) : List String :=
  let slope := pyOrQ m.slope_indicative_pct 0
  (if !m.touches_road then
    ["Проверить правовой доступ: статус дороги, сервитут/проезд."] else []) ++
  ["Проверить карты паводков/ПЗУ и водоохранные зоны (региональные ГИС)."] ++
  (if optLt m.d_water_m 100 then
    ["Сверить границы и режимы водоохранной/прибрежной зон."] else []) ++
  (if optLt m.d_power_m 50 then
    ["Уточнить класс напряжения и ширину охранной зоны ЛЭП."] else []) ++
  (if optLt m.d_rail_m 200 then
    ["Проверить шум/вибрации, ночные грузовые поезда."] else []) ++
  (if optLt m.d_gas_m 50 then
    ["Проверить наличие охранной зоны и запреты на строительство."] else []) ++
  (if optLt m.d_industrial_m 500 then
    ["Проверить тип предприятий и СЗЗ (санитарно‑защитные зоны)."] else []) ++
  (if optLt m.d_landfill_m 1000 then
    ["Проверить статус полигона, розу ветров."] else []) ++
  (if optLt m.d_wastewater_m 700 then
    ["Проверить СЗЗ очистных."] else []) ++
  (if optLt m.d_cemetery_m 300 then
    ["Учесть субъективные факторы, СЗЗ."] else []) ++
  (if 8 ≤ slope then
    ["Оценить планировку/дренаж, удобный въезд."]
   else if slope ≤ 0.3 then
    ["Предусмотреть ливнёвку/подсыпку."] else []) ++
  (if m.touches_road && decide (m.facade_len_m < 8) then
    ["Проверить вариант размещения ворот/въезда, нормы отступов."] else []) ++
  (if optGt m.d_stop_m 2000 || optGt m.d_place_m 5000 then
    ["Оценить время в пути, сезонную доступность/снегочистку."] else [])

-- The `fr` binding in `rawChecks` mirrors lines 123–126; the code also
-- stores the recomputed value back into the metric dictionary, a side
-- effect that does not influence the returned lists.

/-- metrics.py `build_risks` (lines 112–192): the pair of the risk list
(rule order) and the checklist after `list(dict.fromkeys(checks))`. -/
def buildRisks (m : MetricSet) : List String × List String :=
  (rawRisks m, dedupFirst (rawChecks m))

theorem dedupFirstAux_sublist :
    ∀ (l seen : List String), List.Sublist (dedupFirstAux seen l) l
  | [], _ => List.nil_sublist []
  | a :: l, seen => by
    unfold dedupFirstAux
    split_ifs with h
    · exact (dedupFirstAux_sublist l seen).trans (List.sublist_cons_self a l)
    · exact List.Sublist.cons₂ a (dedupFirstAux_sublist l (a :: seen))

theorem mem_dedupFirstAux :
    ∀ (l seen : List String) (s : String), s ∈ l → s ∉ seen →
      s ∈ dedupFirstAux seen l
  | [], _, s, hmem, _ => absurd hmem (List.not_mem_nil s)
  | a :: l, seen, s, hmem, hn => by
    unfold dedupFirstAux
    split_ifs with h
    · rcases List.mem_cons.mp hmem with rfl | hs
      · exact absurd h hn
      · exact mem_dedupFirstAux l seen s hs hn
    · rcases List.mem_cons.mp hmem with rfl | hs
      · exact List.mem_cons_self _ _
      · by_cases hsa : s = a
        · rw [hsa]; exact List.mem_cons_self _ _
        · refine List.mem_cons_of_mem _ (mem_dedupFirstAux l (a :: seen) s hs ?_)
          intro hcon
          rcases List.mem_cons.mp hcon with h1 | h1
          · exact hsa h1
          · exact hn h1

theorem not_mem_dedupFirstAux :
    ∀ (l seen : List String) (s : String), s ∈ seen →
      s ∉ dedupFirstAux seen l
  | [], _, s, _ => List.not_mem_nil s
  | a :: l, seen, s, hs => by
    unfold dedupFirstAux
    split_ifs with h
    · exact not_mem_dedupFirstAux l seen s hs
    · intro hcon
      rcases List.mem_cons.mp hcon with rfl | h1
      · exact h hs
      · exact not_mem_dedupFirstAux l (a :: seen) s (List.mem_cons_of_mem a hs) h1

theorem dedupFirstAux_nodup :
    ∀ (l seen : List String), (dedupFirstAux seen l).Nodup
  | [], _ => List.nodup_nil
  | a :: l, seen => by
    unfold dedupFirstAux
    split_ifs with h
    · exact dedupFirstAux_nodup l seen
    · exact List.nodup_cons.mpr
        ⟨not_mem_dedupFirstAux l (a :: seen) a (List.mem_cons_self a seen),
         dedupFirstAux_nodup l (a :: seen)⟩

/-- C9: for every metric set, the returned checklist has no duplicates,
is an in-order sublist of the rule-order raw checklist (so each kept
string stays at its first occurrence position), loses no string, and the
risks list is exactly the rule-order accumulation `rawRisks`. -/
theorem build_risks_checklist_dedup (m : MetricSet) :
    (buildRisks m).1 = rawRisks m ∧
    (buildRisks m).2.Nodup ∧
    List.Sublist (buildRisks m).2 (rawChecks m) ∧
    ∀ s, s ∈ rawChecks m → s ∈ (buildRisks m).2 :=
  ⟨rfl, dedupFirstAux_nodup _ _, dedupFirstAux_sublist _ _,
   fun s hs => mem_dedupFirstAux _ _ s hs (List.not_mem_nil s)⟩

/-- A metric set that satisfies no rule condition of `build_risks`: road
adjacency present with a wide frontage, every distance unknown, mid-range
slope, zero stored flood percentage. -/
def noTriggerMetricSet : MetricSet where
  touches_road := true
  facade_len_m := 100
  d_road_m := none
  d_water_m := none
  d_power_m := none
  d_stop_m := none
  d_place_m := none
  d_rail_m := none
  d_gas_m := none
  d_industrial_m := none
  d_landfill_m := none
  d_wastewater_m := none
  d_cemetery_m := none
  rel_lowness_m := some 0
  slope_indicative_pct := some 3
  flood_pct := some 0

/-- Witness for C9 at a concrete metric set, instantiating the
completeness conjunct at the flood-zone checklist string. -/
theorem build_risks_checklist_dedup_witness :
    (buildRisks noTriggerMetricSet).1 = rawRisks noTriggerMetricSet ∧
    (buildRisks noTriggerMetricSet).2.Nodup ∧
    List.Sublist (buildRisks noTriggerMetricSet).2 (rawChecks noTriggerMetricSet) ∧
    "Проверить карты паводков/ПЗУ и водоохранные зоны (региональные ГИС)." ∈
      (buildRisks noTriggerMetricSet).2 :=
  ⟨(build_risks_checklist_dedup noTriggerMetricSet).1,
   (build_risks_checklist_dedup noTriggerMetricSet).2.1,
   (build_risks_checklist_dedup noTriggerMetricSet).2.2.1,
   (build_risks_checklist_dedup noTriggerMetricSet).2.2.2 _ (by
     norm_num [rawChecks, noTriggerMetricSet, optLt, optGt, pyOrQ])⟩

/-- C5 (counterexample): a metric set that triggers no rule condition
still gets a non-empty checklist, because the flood-zone-maps item
(line 131) is appended unconditionally. -/
theorem build_risks_checklist_nonempty_counterexample :
    (buildRisks noTriggerMetricSet).2 ≠ [] := by
  norm_num [buildRisks, rawChecks, noTriggerMetricSet, optLt, optGt, pyOrQ,
    dedupFirst, dedupFirstAux]

/-- C5 (amended): every rule of `build_risks` appends its checklist
string only when its distance/threshold condition holds, *except* the
flood rule's checklist item, which is appended unconditionally; hence a
metric result that triggers no rule condition yields an empty risks list
and a checklist consisting exactly of the flood-zone-maps item. -/
theorem build_risks_no_trigger (m : MetricSet) (f : ℤ) (s : ℚ)
    (h_touch : m.touches_road = true)
    (h_fr : m.flood_pct = some f) (h_f : f < 35)
    (h_water : m.d_water_m = none) (h_power : m.d_power_m = none)
    (h_rail : m.d_rail_m = none) (h_gas : m.d_gas_m = none)
    (h_ind : m.d_industrial_m = none) (h_land : m.d_landfill_m = none)
    (h_ww : m.d_wastewater_m = none) (h_cem : m.d_cemetery_m = none)
    (h_stop : m.d_stop_m = none) (h_place : m.d_place_m = none)
    (h_slope : m.slope_indicative_pct = some s) (hs1 : 0.3 < s) (hs2 : s < 8)
    (h_fac : 8 ≤ m.facade_len_m) :
    buildRisks m =
      ([], ["Проверить карты паводков/ПЗУ и водоохранные зоны (региональные ГИС)."]) := by
  have h65 : ¬(65 ≤ f) := by omega
  have h35 : ¬(35 ≤ f) := by omega
  have hs0 : ¬(s = 0) := by intro h; rw [h] at hs1; norm_num at hs1
  have hs8 : ¬(8 ≤ s) := not_le.mpr hs2
  have hs3 : ¬(s ≤ 0.3) := not_le.mpr hs1
  have hfac : decide (m.facade_len_m < 8) = false :=
    decide_eq_false (not_lt.mpr h_fac)
  simp [buildRisks, rawRisks, rawChecks, buildRisksFloodPct, dedupFirst,
    dedupFirstAux, optLt, optGt, pyOrQ, h_touch, h_fr, h_water, h_power,
    h_rail, h_gas, h_ind, h_land, h_ww, h_cem, h_stop, h_place, h_slope,
    h65, h35, hs0, hs8, hs3, hfac]

/-- Witness for C5's amended theorem at the concrete no-trigger set. -/
theorem build_risks_no_trigger_witness :
    buildRisks noTriggerMetricSet =
      ([], ["Проверить карты паводков/ПЗУ и водоохранные зоны (региональные ГИС)."]) :=
  build_risks_no_trigger noTriggerMetricSet 0 3 rfl rfl (by norm_num) rfl rfl
    rfl rfl rfl rfl rfl rfl rfl rfl rfl (by norm_num) (by norm_num)
    (by norm_num [noTriggerMetricSet])

end GeoBot
